import Mathlib

/-!
Shallow embedding of the KSC lowering engine (`src/main.rs` of kemoshumai/ksc1000).

The Rust program drives inkwell/LLVM.  We embed the compiler state explicitly:
LLVM types and values become inductives, the inkwell builder becomes an
"insertion cursor" (index of the basic block receiving instructions), basic
blocks are a global list indexed by creation order, and every Rust `panic!`
becomes an `Except.error` carrying the panic message.  Opaque instruction
results (icmp results, phi results, incoming function parameters) are
represented by `BasicValueEnum.SSAValue ty id`; its `discriminant` is derived
from the carried type kind, matching Rust's `std::mem::discriminant` over
`inkwell::values::BasicValueEnum`.
-/

deriving instance DecidableEq for Except

namespace KSC

/-- Embedding of `inkwell::types::AnyTypeEnum`.  Only the payloads the program
inspects are kept: float/int widths.  `FloatType 64` is `context.f64_type()`,
`IntType w` is a `w`-bit integer type. -/
inductive AnyTypeEnum where
  | ArrayType
  | FloatType (width : Nat)
  | FunctionType
  | IntType (width : Nat)
  | PointerType
  | StructType
  | VectorType
  | VoidType
  deriving DecidableEq, Repr

/-- Embedding of `struct KSCType` (main.rs:22). -/
structure KSCType where
  name : String
  reference : AnyTypeEnum
  deriving DecidableEq, Repr

/-- Embedding of `inkwell::values::BasicValueEnum`.  `IntValue width val` is an
integer constant of the given bit width, `FloatValue` a float constant (floats
are modelled by rationals: every finite f64 is a rational and all operations
the program performs on them are exact), `PointerValue id` the result of an
`alloca`, and `SSAValue ty id` an opaque instruction result or incoming
function parameter of LLVM type `ty`. -/
inductive BasicValueEnum where
  | ArrayValue
  | IntValue (width : Nat) (val : Nat)
  | FloatValue (val : ℚ)
  | PointerValue (id : Nat)
  | StructValue
  | VectorValue
  | SSAValue (ty : AnyTypeEnum) (id : Nat)
  deriving DecidableEq, Repr

/-- Variant index of the `BasicValueEnum` a value of the given LLVM type kind
inhabits (used to give `SSAValue` its discriminant). -/
def typeKindIndex : AnyTypeEnum → Nat
  | .ArrayType => 0
  | .IntType _ => 1
  | .FloatType _ => 2
  | .PointerType => 3
  | .StructType => 4
  | .VectorType => 5
  | .FunctionType => 6
  | .VoidType => 7

/-- Embedding of Rust's `std::mem::discriminant` on `BasicValueEnum`: it
distinguishes only the enum variant (Int vs Float vs Pointer ...), never the
bit width or the payload. -/
def discriminant : BasicValueEnum → Nat
  | .ArrayValue => 0
  | .IntValue _ _ => 1
  | .FloatValue _ => 2
  | .PointerValue _ => 3
  | .StructValue => 4
  | .VectorValue => 5
  | .SSAValue ty _ => typeKindIndex ty

/-- Embedding of `inkwell::values::AnyValueEnum` restricted to the variants the
program produces: basic values and function values. -/
inductive AnyValueEnum where
  | BasicVal (v : BasicValueEnum)
  | FunctionVal (fname : String)
  deriving DecidableEq, Repr

/-- Embedding of `struct KSCValue` (main.rs:27). -/
structure KSCValue where
  valuetype : KSCType
  value : AnyValueEnum
  deriving DecidableEq, Repr

/-- Embedding of `struct Stack` (main.rs:33): one lexical scope holding the
types and values defined in it. -/
structure Stack where
  types : List KSCType
  values : List KSCValue
  deriving DecidableEq, Repr

/-- Embedding of `inkwell::IntPredicate` (the predicates the program uses). -/
inductive IntPredicate where
  | EQ
  | NE
  | SGT
  | SGE
  | SLT
  | SLE
  deriving DecidableEq, Repr

/-- Instructions the program emits through the inkwell builder.  Block
references are indices into the compiler's global block list. -/
inductive Instr where
  | ICmp (pred : IntPredicate) (lhs rhs : BasicValueEnum) (instrName : String)
  | CondBr (cond : BasicValueEnum) (thenBlock elseBlock : Nat)
  | Br (target : Nat)
  | Alloca (allocTy : AnyTypeEnum) (instrName : String)
  | Store (ptr stored : BasicValueEnum)
  | Phi (phiTy : AnyTypeEnum) (instrName : String)
      (incoming : List (BasicValueEnum × Nat))
  | Call (callee : String) (callArgs : List BasicValueEnum) (instrName : String)
  deriving DecidableEq, Repr

/-- A basic block: its LLVM label, the name of the function it belongs to, and
the instructions emitted into it so far. -/
structure BBlock where
  blockName : String
  parent : String
  instrs : List Instr
  deriving DecidableEq, Repr

/-- An LLVM function as registered in the module (`module.add_function`). -/
structure LLVMFunction where
  fnName : String
  fnParams : List AnyTypeEnum
  fnRet : AnyTypeEnum
  deriving DecidableEq, Repr

/-- Embedding of `inkwell::module::Module`: the functions added so far. -/
structure Module where
  moduleName : String
  functions : List LLVMFunction
  deriving DecidableEq, Repr

/-- Embedding of `struct Compiler` (main.rs:39) together with the inkwell
context/builder state it drives: `blocks` is the list of all basic blocks ever
appended (index = identity), `cursor` the builder's insertion block, `counter`
a supply of fresh ids for opaque values. -/
structure Compiler where
  module : Option Module
  stack_function : List String
  stack : List Stack
  blocks : List BBlock
  cursor : Option Nat
  counter : Nat
  deriving DecidableEq, Repr

/-- Embedding of `Compiler::new` (main.rs:74): no module, empty function-name
stack, a single empty scope. -/
def Compiler.new : Compiler :=
  { module := none
    stack_function := []
    stack := [{ types := [], values := [] }]
    blocks := []
    cursor := none
    counter := 0 }

/-- Embedding of `insert_new_type_to_stack` (main.rs:51): push the type onto
the last (innermost) scope, panicking when there is no scope.  Rust `Vec` order
is kept: head of the list = first pushed = outermost scope. -/
def insert_new_type_to_stack (c : Compiler) (ksctype : KSCType) :
    Except String Compiler :=
  match c.stack.getLast? with
  | none => .error "There is no stack yet!"
  | some s =>
      .ok { c with
              stack := c.stack.dropLast ++ [{ s with types := s.types ++ [ksctype] }] }

/-- Embedding of `get_ksctype_from_name` (main.rs:59): iterate the scope vector
from the front (`for scope in &self.stack`), i.e. outermost scope first, and
inside each scope return the first type whose name matches. -/
def get_ksctype_from_name (c : Compiler) (name : String) : Option KSCType :=
  c.stack.findSome? (fun scope => scope.types.find? (fun ksct => ksct.name == name))

/-- Embedding of `init_primitive_types` (main.rs:97): registers Number ↦ f64,
i32 ↦ i32, bool ↦ i1 and void ↦ void, in that order. -/
def init_primitive_types (c : Compiler) : Except String Compiler := do
  let c ← insert_new_type_to_stack c { name := "Number", reference := .FloatType 64 }
  let c ← insert_new_type_to_stack c { name := "i32", reference := .IntType 32 }
  let c ← insert_new_type_to_stack c { name := "bool", reference := .IntType 1 }
  let c ← insert_new_type_to_stack c { name := "void", reference := .VoidType }
  return c

/-- Embedding of `create_module` (main.rs:134): unconditionally installs a
fresh module, overwriting any existing one. -/
def create_module (c : Compiler) (module_name : String) : Compiler :=
  { c with module := some { moduleName := module_name, functions := [] } }

/-- Embedding of `Builder::position_at_end`. -/
def position_at_end (c : Compiler) (block : Nat) : Compiler :=
  { c with cursor := some block }

/-- Embedding of `Module::get_function`: first function with the given name. -/
def Module.get_function (m : Module) (name : String) : Option LLVMFunction :=
  m.functions.find? (fun f => f.fnName == name)

/-- Append an instruction to the block the builder is positioned at
(what every inkwell `build_*` call does). -/
def emitInstr (c : Compiler) (i : Instr) : Except String Compiler :=
  match c.cursor with
  | none => .error "Builder has no insertion block."
  | some k =>
      match c.blocks[k]? with
      | none => .error "Insertion block does not exist."
      | some bb =>
          .ok { c with blocks := c.blocks.set k { bb with instrs := bb.instrs ++ [i] } }

/-- Embedding of `context.append_basic_block(parent, name)`: a fresh block at
the end of the global block list; its id is the old list length. -/
def append_basic_block (c : Compiler) (parentFn : String) (blockName : String) :
    Nat × Compiler :=
  (c.blocks.length,
   { c with blocks := c.blocks ++ [{ blockName := blockName, parent := parentFn, instrs := [] }] })

/-- The `AnyTypeEnum → BasicMetadataTypeEnum` / `BasicTypeEnum` conversion the
program writes out by hand several times (main.rs:145, 286): function and void
types are rejected, everything else is kept. -/
def anyToParamType : AnyTypeEnum → Except String AnyTypeEnum
  | .FunctionType => .error "Function type cannot be param."
  | .VoidType => .error "Void type cannot be param."
  | t => .ok t

/-- The parameter-type resolution loop of `create_function` (main.rs:143):
each named type is looked up in the scope stack (panic when missing) and
converted, left to right. -/
def resolveParamTypes (c : Compiler) : List String → Except String (List AnyTypeEnum)
  | [] => .ok []
  | pt :: rest =>
      match get_ksctype_from_name c pt with
      | none => .error "Param type not defined!"
      | some kt =>
          match anyToParamType kt.reference with
          | .error e => .error e
          | .ok t =>
              match resolveParamTypes c rest with
              | .error e => .error e
              | .ok ts => .ok (t :: ts)

/-- The instruction sequence the parameter loop of `create_function`
(main.rs:180) emits: for the i-th parameter, an `alloca` of its type named
after the parameter (whose pointer gets the next fresh id) followed by a store
of the incoming parameter value (`SSAValue ty i`) into that pointer. -/
def paramInstrs : List (AnyTypeEnum × String) → Nat → Nat → List Instr
  | [], _, _ => []
  | (ty, pname) :: rest, ptrCtr, argIdx =>
      .Alloca ty pname ::
        .Store (.PointerValue ptrCtr) (.SSAValue ty argIdx) ::
          paramInstrs rest (ptrCtr + 1) (argIdx + 1)

/-- Emit a list of instructions one after the other at the cursor. -/
def emitAll : Compiler → List Instr → Except String Compiler
  | c, [] => .ok c
  | c, i :: rest =>
      match emitInstr c i with
      | .error e => .error e
      | .ok c2 => emitAll c2 rest

/-- Embedding of `create_function` (main.rs:139): push the name on the
function stack, resolve parameter types and the return type from the scope
stack, add the function to the module, append one entry basic block named
after the function, position the cursor there, check the two parameter lists
have the same length, then for each parameter alloca a slot and store the
incoming value.  No scope is pushed and nothing is added to `stack`. -/
def create_function (c : Compiler) (name return_type : String)
    (param_types : List String) (param_names : List String) :
    Except String (LLVMFunction × Compiler) :=
  let c := { c with stack_function := c.stack_function ++ [name] }
  match resolveParamTypes c param_types with
  | .error e => .error e
  | .ok resolved =>
      match get_ksctype_from_name c return_type with
      | none => .error "Return type not defined!"
      | some rt =>
          if rt.reference = .FunctionType then
            .error "Function type cannot be returned."
          else
            match c.module with
            | none => .error "Failed to create function. There is no Module yet. Create module first."
            | some m =>
                let func : LLVMFunction :=
                  { fnName := name, fnParams := resolved, fnRet := rt.reference }
                let c := { c with module := some { m with functions := m.functions ++ [func] } }
                let (bb, c) := append_basic_block c name name
                let c := position_at_end c bb
                if resolved.length ≠ param_names.length then
                  .error "The number of parameters does not match the type and name."
                else
                  match emitAll { c with counter := c.counter + resolved.length }
                          (paramInstrs (resolved.zip param_names) c.counter 0) with
                  | .error e => .error e
                  | .ok c2 => .ok (func, c2)

/-- Embedding of `builder.build_int_compare`: emits the icmp and returns its
(opaque, 1-bit) result value. -/
def build_int_compare (c : Compiler) (pred : IntPredicate)
    (lhs rhs : BasicValueEnum) (instrName : String) :
    Except String (BasicValueEnum × Compiler) :=
  match emitInstr c (.ICmp pred lhs rhs instrName) with
  | .error e => .error e
  | .ok c2 => .ok (.SSAValue (.IntType 1) c.counter, { c2 with counter := c.counter + 1 })

/-- Embedding of `create_if_branch` (main.rs:247): compare the condition
against the 1-bit zero constant with predicate NE, look up the enclosing
function (last entry of `stack_function`) in the module, append three blocks
named "then", "else" and "ifcont" to it, and emit a conditional branch on the
comparison from the current block. -/
def create_if_branch (c : Compiler) (condition_bool : BasicValueEnum) :
    Except String ((Nat × Nat × Nat) × Compiler) :=
  let zero_const : BasicValueEnum := .IntValue 1 0
  match build_int_compare c .NE condition_bool zero_const "ifcond" with
  | .error e => .error e
  | .ok (condition, c) =>
      match c.stack_function.getLast? with
      | none => .error "No function found!"
      | some parent_func_name =>
          match c.module with
          | none => .error "No module."
          | some m =>
              match m.get_function parent_func_name with
              | none => .error "No function."
              | some _parent =>
                  let (then_block, c) := append_basic_block c parent_func_name "then"
                  let (else_block, c) := append_basic_block c parent_func_name "else"
                  let (cont_block, c) := append_basic_block c parent_func_name "ifcont"
                  match emitInstr c (.CondBr condition then_block else_block) with
                  | .error e => .error e
                  | .ok c => .ok ((then_block, else_block, cont_block), c)

/-- Embedding of `start_if_branch` (main.rs:269). -/
def start_if_branch (c : Compiler) (branch : Nat) : Compiler :=
  position_at_end c branch

/-- Embedding of `end_if_branch` (main.rs:274): emit an unconditional branch
to `branch` from the current block and return the block the cursor is in. -/
def end_if_branch (c : Compiler) (branch : Nat) : Except String (Nat × Compiler) :=
  match emitInstr c (.Br branch) with
  | .error e => .error e
  | .ok c2 =>
      match c2.cursor with
      | none => .error "No insertion block."
      | some k => .ok (k, c2)

/-- Embedding of `merge_if_branch` (main.rs:280): position at the merge block;
panic when the two values' Rust enum discriminants differ (this is the whole
type check); look up the result type by name (panicking with an empty message
when missing, mirrored by the empty error string); build the phi with the two
incoming edges and return its value. -/
def merge_if_branch (c : Compiler) (then_value else_value : BasicValueEnum)
    (then_block else_block cont_block : Nat) (typename : String) :
    Except String (BasicValueEnum × Compiler) :=
  let c := position_at_end c cont_block
  if discriminant then_value ≠ discriminant else_value then
    .error "The return value on then and the return value on else have different types."
  else
    match get_ksctype_from_name c typename with
    | none => .error ""
    | some rettype =>
        match anyToParamType rettype.reference with
        | .error e => .error e
        | .ok rty =>
            match emitInstr c (.Phi rty "iftmp" [(then_value, then_block), (else_value, else_block)]) with
            | .error e => .error e
            | .ok c2 => .ok (.SSAValue rty c.counter, { c2 with counter := c.counter + 1 })

/-- Runtime semantics of a phi node: the value selected when control arrives
from predecessor block `pred` (first matching incoming edge, as in LLVM where
incoming edges are keyed by predecessor). -/
def phiEval (incoming : List (BasicValueEnum × Nat)) (pred : Nat) :
    Option BasicValueEnum :=
  (incoming.find? (fun p => p.2 == pred)).map (fun p => p.1)

/-- Rust `f64::round`: nearest integer, ties away from zero. -/
def rustRound (q : ℚ) : ℤ :=
  if 0 ≤ q then ⌊q + 1 / 2⌋ else ⌈q - 1 / 2⌉

/-- Rust `as`-cast from f64 to u64: saturating — negative values give 0,
values above `2 ^ 64 - 1` give `2 ^ 64 - 1`. -/
def f64AsU64Sat (z : ℤ) : Nat :=
  if z < 0 then 0 else min z.toNat (2 ^ 64 - 1)

/-- Embedding of `create_constant_number` (main.rs:354): look up the target
type; a float type gives a float constant with the literal's value; an integer
type of width `w` gives `inttype.const_int(number.round() as u64, false)`,
i.e. the literal rounded (ties away from zero), saturating-cast to u64, and
truncated by LLVM to the type's width. -/
def create_constant_number (c : Compiler) (type_name : String) (number : ℚ) :
    Except String BasicValueEnum :=
  match get_ksctype_from_name c type_name with
  | none => .error "Param type not defined!"
  | some constant_type =>
      match constant_type.reference with
      | .FloatType _ => .ok (.FloatValue number)
      | .IntType w => .ok (.IntValue w (f64AsU64Sat (rustRound number) % 2 ^ w))
      | _ => .error "Constants of this type cannot be declared!"

/-- Embedding of `create_function_call` (main.rs:413): require the name to be
in `stack_function` and in the module's function table (panicking otherwise),
then emit the call with the given arguments as they are — no argument-count or
argument-type validation — and return its basic value, which is `none` exactly
when the callee returns void (`try_as_basic_value().left()`). -/
def create_function_call (c : Compiler) (name : String)
    (args : List BasicValueEnum) :
    Except String (Option BasicValueEnum × Compiler) :=
  if c.stack_function.contains name = false then
    .error "Function not found!"
  else
    match c.module with
    | none => .error "There is no Module yet. Create module first."
    | some m =>
        match m.get_function name with
        | none => .error "Function not found!"
        | some func =>
            match emitInstr c (.Call name args name) with
            | .error e => .error e
            | .ok c2 =>
                if func.fnRet = .VoidType then .ok (none, c2)
                else .ok (some (.SSAValue func.fnRet c.counter), { c2 with counter := c.counter + 1 })

/-- Embedding of `enum Expression` (main.rs:429). -/
inductive Expression where
  | Function (name return_type : String)
      (param_types param_names : List String) (content : List Expression)
  | VariableDeclaration (typename name : String) (mutableFlag : Bool)
      (value : Expression)
  deriving Repr

/-- Embedding of `compile_expression` (main.rs:474).  The `Function` arm calls
`create_function` (the body `content` is never compiled by the source) and
wraps the function value with type name "Function"; the `VariableDeclaration`
arm compiles the initializer, takes the variable's type to be the initializer's
own type when that is named "Function" and otherwise resolves the declared
type name (panicking when unknown), panics when the two type names differ, and
returns the initializer's value unchanged — no slot is allocated, nothing is
stored and no binding is added to any scope. -/
def compile_expression (c : Compiler) (e : Expression) :
    Except String (KSCValue × Compiler) :=
  match e with
  | .Function name return_type param_types param_names _content =>
      match create_function c name return_type param_types param_names with
      | .error err => .error err
      | .ok (func, c2) =>
          .ok ({ valuetype := { name := "Function", reference := .FunctionType }
                 value := .FunctionVal func.fnName }, c2)
  | .VariableDeclaration typename _name _mutableFlag value =>
      match compile_expression c value with
      | .error err => .error err
      | .ok (executed, c2) =>
          let vartypeOpt : Option KSCType :=
            if executed.valuetype.name = "Function" then some executed.valuetype
            else get_ksctype_from_name c2 typename
          match vartypeOpt with
          | none => .error "Type is not found!"
          | some vartype =>
              if vartype.name ≠ executed.valuetype.name then
                .error "Cannot be assigned because the type is different."
              else .ok (executed, c2)

/-! Concrete compiler states used to evaluate the operations on explicit
inputs.  They are built through the embedded operations themselves. -/

/-- Extract the success state of an `Except`, with a default. -/
def okD (e : Except String Compiler) (d : Compiler) : Compiler :=
  match e with
  | .ok c => c
  | .error _ => d

/-- The compiler right after `Compiler::new` and `init_primitive_types`. -/
def afterInit : Compiler := okD (init_primitive_types Compiler.new) Compiler.new

/-- `afterInit` after `create_module "m"`. -/
def cexModule : Compiler := create_module afterInit "m"

/-- `cexModule` after `create_function "f" : (a : Number) -> Number`. -/
def cexFunc : Compiler :=
  match create_function cexModule "f" "Number" ["Number"] ["a"] with
  | .ok (_, c) => c
  | .error _ => Compiler.new

/-- `cexFunc` after `create_if_branch` on the 32-bit condition value 7; the
three created blocks have ids 1 (then), 2 (else) and 3 (ifcont). -/
def cexIf : Compiler :=
  match create_if_branch cexFunc (.IntValue 32 7) with
  | .ok (_, c) => c
  | .error _ => Compiler.new

/-- A scope stack with two scopes both binding the type name "T": the
outermost (front of the vector) to f64, the innermost (back) to i32. -/
def cexScopes : Compiler :=
  { Compiler.new with
      stack := [{ types := [{ name := "T", reference := .FloatType 64 }], values := [] },
                { types := [{ name := "T", reference := .IntType 32 }], values := [] }] }

/-- A single scope already binding "T" to i32 (for the duplicate-insert
experiment). -/
def cexDup : Compiler :=
  { Compiler.new with
      stack := [{ types := [{ name := "T", reference := .IntType 32 }], values := [] }] }

/-- The demonstration program of `main` (main.rs:510): a variable declaration
whose initializer is the function literal `gcd(a b : Number) : Number`. -/
def gcdProgram : Expression :=
  .VariableDeclaration "Function" "gcd" false
    (.Function "gcd" "Number" ["Number", "Number"] ["a", "b"] [])

/-! Helper lemmas about the builder embedding, shared by the claim proofs. -/

/-- Setting a list index to the element already there changes nothing. -/
theorem list_set_self {α : Type} (l : List α) (k : Nat) (x : α)
    (h : l[k]? = some x) : l.set k x = l := by
  induction l generalizing k with
  | nil => simp at h
  | cons a t ih =>
    cases k with
    | zero => simp_all
    | succ n => simp_all [List.set]

/-- Successful `emitInstr`: with the cursor on an existing block, the
instruction is appended to that block. -/
theorem emitInstr_ok (c : Compiler) (i : Instr) (k : Nat) (bb : BBlock)
    (hc : c.cursor = some k) (hb : c.blocks[k]? = some bb) :
    emitInstr c i =
      .ok { c with blocks := c.blocks.set k { bb with instrs := bb.instrs ++ [i] } } := by
  simp [emitInstr, hc, hb]

/-- Successful `emitAll`: the whole instruction list is appended in order to
the cursor block. -/
theorem emitAll_ok (L : List Instr) (c : Compiler) (k : Nat) (bb : BBlock)
    (hc : c.cursor = some k) (hb : c.blocks[k]? = some bb) :
    emitAll c L =
      .ok { c with blocks := c.blocks.set k { bb with instrs := bb.instrs ++ L } } := by
  induction L generalizing c bb with
  | nil =>
    unfold emitAll
    rw [show ({ bb with instrs := bb.instrs ++ [] } : BBlock) = bb by simp,
        list_set_self c.blocks k bb hb]
  | cons i rest ih =>
    unfold emitAll
    rw [emitInstr_ok c i k bb hc hb]
    have hk : k < c.blocks.length := (List.getElem?_eq_some.mp hb).1
    have hset : (c.blocks.set k { bb with instrs := bb.instrs ++ [i] })[k]? =
        some { bb with instrs := bb.instrs ++ [i] } := by
      rw [List.getElem?_set_self]
      simpa using hk
    exact (ih { c with blocks := c.blocks.set k { bb with instrs := bb.instrs ++ [i] } }
            { bb with instrs := bb.instrs ++ [i] } hc hset).trans (by simp [List.set_set])

/-- `emitInstr` never changes the scope stack. -/
theorem emitInstr_stack (c c' : Compiler) (i : Instr)
    (h : emitInstr c i = .ok c') : c'.stack = c.stack := by
  unfold emitInstr at h
  split at h
  · cases h
  · split at h
    · cases h
    · cases h
      rfl

/-- `emitAll` never changes the scope stack. -/
theorem emitAll_stack (L : List Instr) (c c' : Compiler)
    (h : emitAll c L = .ok c') : c'.stack = c.stack := by
  induction L generalizing c with
  | nil =>
    unfold emitAll at h
    cases h
    rfl
  | cons i rest ih =>
    unfold emitAll at h
    split at h
    · cases h
    · next c2 heq =>
        rw [ih c2 h]
        exact emitInstr_stack c c2 i heq

/-- `anyToParamType` keeps every type that is neither a function type nor the
void type. -/
theorem anyToParamType_ok (t : AnyTypeEnum)
    (hf : t ≠ .FunctionType) (hv : t ≠ .VoidType) : anyToParamType t = .ok t := by
  cases t <;> simp_all [anyToParamType]

/-- C1 counterexample: `merge_if_branch` succeeds on a 32-bit then-value and a
1-bit else-value, although their types differ (widths 32 vs 1) — the
discriminant check does not distinguish integer widths, so no type-mismatch
failure occurs. -/
theorem C1_counterexample :
    (merge_if_branch cexIf (.IntValue 32 5) (.IntValue 1 1) 1 2 3 "i32").isOk = true ∧
    (32 : Nat) ≠ 1 := by
  decide

/-- C2 counterexample: on the concrete state `cexFunc` with a 32-bit
condition, `create_if_branch` creates blocks named "then", "else" and
"ifcont" — the merge block is not named "merge" — and the zero constant of the
emitted comparison is the 1-bit constant 0, not a zero of the condition's
32-bit representation. -/
theorem C2_counterexample :
    (create_if_branch cexFunc (.IntValue 32 7)).toOption.map (fun r => r.1) =
      some (1, 2, 3) ∧
    cexIf.blocks.map (fun b => b.blockName) = ["f", "then", "else", "ifcont"] ∧
    ("ifcont" : String) ≠ "merge" ∧
    cexIf.blocks[0]?.map (fun b => b.instrs) =
      some [.Alloca (.FloatType 64) "a",
            .Store (.PointerValue 0) (.SSAValue (.FloatType 64) 0),
            .ICmp .NE (.IntValue 32 7) (.IntValue 1 0) "ifcond",
            .CondBr (.SSAValue (.IntType 1) 1) 1 2] ∧
    (1 : Nat) ≠ 32 := by
  decide

/-- C3 counterexample: the function "f" of `cexFunc` is declared with one
parameter, yet calling it with zero arguments succeeds — no
parameter-count (nor argument-type) check is performed. -/
theorem C3_counterexample :
    (cexFunc.module.bind (fun m => m.get_function "f")).map (fun f => f.fnParams.length) =
      some 1 ∧
    (create_function_call cexFunc "f" []).isOk = true := by
  decide

/-- C4 counterexample: `create_function` succeeds on `cexModule` but pushes no
scope and binds nothing: the scope stack after (`cexFunc.stack`) equals the
scope stack before, still a single scope with no value bindings, so the
parameter "a" is not resolvable by name through the scope stack. -/
theorem C4_counterexample :
    (create_function cexModule "f" "Number" ["Number"] ["a"]).isOk = true ∧
    cexFunc.stack = cexModule.stack ∧
    cexFunc.stack.length = 1 ∧
    cexFunc.stack.map (fun s => s.values) = [[]] := by
  decide

/-- C5 counterexample: compiling the variable declaration `gcd` succeeds but
allocates no slot, stores nothing and binds no name: the resulting scope stack
equals the one before, and no scope holds any value binding. -/
theorem C5_counterexample :
    (compile_expression cexModule gcdProgram).isOk = true ∧
    (compile_expression cexModule gcdProgram).toOption.map (fun p => p.2.stack) =
      some cexModule.stack ∧
    cexModule.stack.map (fun s => s.values) = [[]] := by
  decide

/-- C6: evaluating the code at the failing input: with the outermost scope
binding "T" to f64 and the innermost scope binding "T" to i32,
`get_ksctype_from_name` returns the outermost f64 binding — the search runs
outermost-first, so the innermost binding does not shadow the outer one as the
scope-stack design requires. -/
theorem C6_code_eval :
    get_ksctype_from_name cexScopes "T" =
      some { name := "T", reference := .FloatType 64 } ∧
    cexScopes.stack.getLast?.map (fun s => s.types) =
      some [{ name := "T", reference := .IntType 32 }] ∧
    AnyTypeEnum.FloatType 64 ≠ AnyTypeEnum.IntType 32 := by
  decide

/-- C7 counterexample: after `init_primitive_types` none of the names "Int32",
"Bool" and "Void" from the claim resolves — the builtins are registered under
other names. -/
theorem C7_counterexample :
    (init_primitive_types Compiler.new).isOk = true ∧
    get_ksctype_from_name afterInit "Int32" = none ∧
    get_ksctype_from_name afterInit "Bool" = none ∧
    get_ksctype_from_name afterInit "Void" = none := by
  decide

/-- C7 amended: after session initialization the single (outermost) scope
contains exactly four builtin types, resolvable under the names "Number"
(64-bit float), "i32" (32-bit integer), "bool" (1-bit integer) and "void"
(void). -/
theorem C7_amended :
    init_primitive_types Compiler.new = .ok afterInit ∧
    afterInit.stack.length = 1 ∧
    afterInit.stack.map (fun s => s.types.length) = [4] ∧
    get_ksctype_from_name afterInit "Number" =
      some { name := "Number", reference := .FloatType 64 } ∧
    get_ksctype_from_name afterInit "i32" =
      some { name := "i32", reference := .IntType 32 } ∧
    get_ksctype_from_name afterInit "bool" =
      some { name := "bool", reference := .IntType 1 } ∧
    get_ksctype_from_name afterInit "void" =
      some { name := "void", reference := .VoidType } := by
  decide

/-- C8 counterexample: inserting a type whose name is already bound in the
innermost scope does not fail: both bindings end up in the scope. -/
theorem C8_counterexample :
    insert_new_type_to_stack cexDup { name := "T", reference := .FloatType 64 } =
      .ok { cexDup with
              stack := [{ types := [{ name := "T", reference := .IntType 32 },
                                    { name := "T", reference := .FloatType 64 }],
                          values := [] }] } := by
  decide

/-- C9 counterexample: a second `create_module` call does not fail with
`ModuleAlreadyCreated`: it silently replaces the first module. -/
theorem C9_counterexample :
    (create_module Compiler.new "a").module =
      some { moduleName := "a", functions := [] } ∧
    (create_module (create_module Compiler.new "a") "b").module =
      some { moduleName := "b", functions := [] } := by
  decide

/-- C9 amended: every call to `create_module` installs a fresh empty module
under the given name, overwriting whatever module existed, and leaves all
other compiler state unchanged; it never fails. -/
theorem C9_amended (c : Compiler) (module_name : String) :
    (create_module c module_name).module =
      some { moduleName := module_name, functions := [] } ∧
    (create_module c module_name).stack = c.stack ∧
    (create_module c module_name).stack_function = c.stack_function ∧
    (create_module c module_name).blocks = c.blocks ∧
    (create_module c module_name).cursor = c.cursor := by
  exact ⟨rfl, rfl, rfl, rfl, rfl⟩

/-- C1 amended: `merge_if_branch` fails exactly when the two values'
representation kinds (Rust enum discriminants) differ — integer widths are not
distinguished — and succeeds when the discriminants agree and the named result
type resolves to a non-function, non-void type: it then appends to the merge
block a phi whose incoming edges are (then-value, then-block) and (else-value,
else-block), so the phi's runtime value is the then-value when control arrived
via the recorded then-block and the else-value when it arrived via the
(distinct) else-block. -/
theorem C1_amended (c : Compiler) (then_value else_value : BasicValueEnum)
    (then_block else_block cont_block : Nat) (typename : String) :
    (discriminant then_value ≠ discriminant else_value →
      merge_if_branch c then_value else_value then_block else_block cont_block typename =
        .error "The return value on then and the return value on else have different types.") ∧
    (∀ (rettype : KSCType) (bb : BBlock),
      discriminant then_value = discriminant else_value →
      get_ksctype_from_name c typename = some rettype →
      rettype.reference ≠ .FunctionType →
      rettype.reference ≠ .VoidType →
      c.blocks[cont_block]? = some bb →
      merge_if_branch c then_value else_value then_block else_block cont_block typename =
        .ok (.SSAValue rettype.reference c.counter,
             { c with
                 cursor := some cont_block
                 counter := c.counter + 1
                 blocks := c.blocks.set cont_block
                   { bb with instrs := bb.instrs ++
                       [.Phi rettype.reference "iftmp"
                         [(then_value, then_block), (else_value, else_block)]] } }) ∧
      phiEval [(then_value, then_block), (else_value, else_block)] then_block =
        some then_value ∧
      (else_block ≠ then_block →
        phiEval [(then_value, then_block), (else_value, else_block)] else_block =
          some else_value)) := by
  constructor
  · intro hne
    simp [merge_if_branch, position_at_end, hne]
  · intro rettype bb heq hty hf hv hbb
    refine ⟨?_, ?_, ?_⟩
    · have hty2 : get_ksctype_from_name { c with cursor := some cont_block } typename =
          some rettype := hty
      have hbb2 : ({ c with cursor := some cont_block } : Compiler).blocks[cont_block]? =
          some bb := hbb
      have hemit := emitInstr_ok { c with cursor := some cont_block }
        (.Phi rettype.reference "iftmp" [(then_value, then_block), (else_value, else_block)])
        cont_block bb rfl hbb2
      simp [merge_if_branch, position_at_end, heq, hty2, anyToParamType_ok _ hf hv, hemit]
    · simp [phiEval]
    · intro hne
      have hne2 : then_block ≠ else_block := fun h => hne h.symm
      simp [phiEval, hne2]

/-- C1 witness: the amended theorem evaluated on concrete inputs — same-kind
float values merge successfully with the expected phi semantics, and values of
different representation kinds are rejected. -/
theorem C1_witness :
    (merge_if_branch cexIf (.FloatValue 1) (.FloatValue 2) 1 2 3 "Number").isOk = true ∧
    phiEval [(.FloatValue 1, 1), (.FloatValue 2, 2)] 1 = some (.FloatValue 1) ∧
    phiEval [(.FloatValue 1, 1), (.FloatValue 2, 2)] 2 = some (.FloatValue 2) ∧
    merge_if_branch cexIf (.IntValue 32 5) (.FloatValue 2) 1 2 3 "Number" =
      .error "The return value on then and the return value on else have different types." := by
  have h := C1_amended cexIf (.FloatValue 1) (.FloatValue 2) 1 2 3 "Number"
  have h2 := h.2 { name := "Number", reference := .FloatType 64 }
    { blockName := "ifcont", parent := "f", instrs := [] }
    (by decide) (by decide) (by decide) (by decide) (by decide)
  refine ⟨?_, h2.2.1, h2.2.2 (by decide), ?_⟩
  · rw [h2.1]
    rfl
  · exact (C1_amended cexIf (.IntValue 32 5) (.FloatValue 2) 1 2 3 "Number").1 (by decide)

/-- `cexIf` positioned at the created then-block (id 1), as the if protocol
does before lowering the then branch. -/
def cexThen : Compiler := start_if_branch cexIf 1

/-- C2 amended: `create_if_branch` creates exactly three new basic blocks
named "then", "else" and "ifcont" (not "merge"), in that order, in the
enclosing function, and emits into the current block a comparison of the
condition against the 1-bit zero constant (predicate NE; the zero is always of
width 1, not of the condition's representation) followed by a conditional
branch on that comparison to the then/else blocks; and `end_if_branch` returns
the block the insertion cursor currently ends in — whatever block that is, not
necessarily an originally created one — which is what gets recorded as the phi
predecessor. -/
theorem C2_amended :
    (∀ (c : Compiler) (cond : BasicValueEnum) (fn : String) (m : Module)
        (f : LLVMFunction) (k : Nat) (bb : BBlock),
      c.stack_function.getLast? = some fn →
      c.module = some m →
      m.get_function fn = some f →
      c.cursor = some k →
      c.blocks[k]? = some bb →
      create_if_branch c cond =
        .ok ((c.blocks.length, c.blocks.length + 1, c.blocks.length + 2),
          { c with
              counter := c.counter + 1
              blocks :=
                ((c.blocks.set k
                    { bb with instrs := bb.instrs ++
                        [Instr.ICmp IntPredicate.NE cond (BasicValueEnum.IntValue 1 0) "ifcond"] }
                  ++ ([{ blockName := "then", parent := fn, instrs := [] },
                       { blockName := "else", parent := fn, instrs := [] },
                       { blockName := "ifcont", parent := fn, instrs := [] }] : List BBlock)).set k
                  { bb with instrs := bb.instrs ++
                      [Instr.ICmp IntPredicate.NE cond (BasicValueEnum.IntValue 1 0) "ifcond",
                       Instr.CondBr (BasicValueEnum.SSAValue (AnyTypeEnum.IntType 1) c.counter)
                         c.blocks.length (c.blocks.length + 1)] } : List BBlock) })) ∧
    (∀ (c : Compiler) (branch k : Nat) (bb : BBlock),
      c.cursor = some k →
      c.blocks[k]? = some bb →
      end_if_branch c branch =
        .ok (k, { c with blocks := c.blocks.set k { bb with instrs := bb.instrs ++ [.Br branch] } })) := by
  constructor
  · intro c cond fn m f k bb h1 h2 h3 h4 h5
    obtain ⟨mod, sf, st, bl, cur, ct⟩ := c
    simp only at h1 h2 h3 h4 h5 ⊢
    subst h2
    subst h4
    have hk : k < bl.length := (List.getElem?_eq_some.mp h5).1
    have hbb1 : ((bl.set k
          { bb with instrs := bb.instrs ++
              [Instr.ICmp IntPredicate.NE cond (BasicValueEnum.IntValue 1 0) "ifcond"] })
        ++ ([{ blockName := "then", parent := fn, instrs := [] },
             { blockName := "else", parent := fn, instrs := [] },
             { blockName := "ifcont", parent := fn, instrs := [] }] : List BBlock))[k]? =
        some { bb with instrs := bb.instrs ++
            [Instr.ICmp IntPredicate.NE cond (BasicValueEnum.IntValue 1 0) "ifcond"] } := by
      rw [List.getElem?_append_left (by simpa using hk), List.getElem?_set_self]
      simpa using hk
    simp [create_if_branch, build_int_compare, emitInstr, append_basic_block,
      h1, h3, h5, hbb1, List.length_set]
  · intro c branch k bb hc hb
    have hemit := emitInstr_ok c (.Br branch) k bb hc hb
    simp [end_if_branch, hemit, hc]

/-- C2 witness: the amended theorem evaluated on the concrete state `cexFunc`
(for block creation and the conditional branch) and on `cexThen` (for
`end_if_branch` returning the cursor block). -/
theorem C2_witness :
    (create_if_branch cexFunc (.IntValue 1 1)).isOk = true ∧
    (end_if_branch cexThen 3).toOption.map (fun p => p.1) = some 1 := by
  constructor
  · rw [C2_amended.1 cexFunc (.IntValue 1 1) "f"
      { moduleName := "m", functions := [{ fnName := "f", fnParams := [.FloatType 64], fnRet := .FloatType 64 }] }
      { fnName := "f", fnParams := [.FloatType 64], fnRet := .FloatType 64 }
      0
      { blockName := "f", parent := "f",
        instrs := [.Alloca (.FloatType 64) "a",
                   .Store (.PointerValue 0) (.SSAValue (.FloatType 64) 0)] }
      (by decide) (by decide) (by decide) (by decide) (by decide)]
    rfl
  · rw [C2_amended.2 cexThen 3 1 { blockName := "then", parent := "f", instrs := [] }
      (by decide) (by decide)]
    rfl

/-- C3 amended: `create_function_call` requires only that the callee name is
on the compiler's function-name stack and in the module's function table; the
argument list is passed through unchecked — for every argument list, whatever
its length and element types, the call instruction is emitted with exactly
those arguments — and the call yields no value exactly when the callee's
declared return type is void.  When the name is not on the function-name
stack the call fails with the panic message "Function not found!". -/
theorem C3_amended :
    (∀ (c : Compiler) (name : String) (args : List BasicValueEnum) (m : Module)
        (func : LLVMFunction) (k : Nat) (bb : BBlock),
      c.stack_function.contains name = true →
      c.module = some m →
      m.get_function name = some func →
      c.cursor = some k →
      c.blocks[k]? = some bb →
      create_function_call c name args =
        .ok ((if func.fnRet = .VoidType then none
              else some (.SSAValue func.fnRet c.counter)),
          { c with
              blocks := c.blocks.set k
                { bb with instrs := bb.instrs ++ [Instr.Call name args name] }
              counter := if func.fnRet = .VoidType then c.counter else c.counter + 1 })) ∧
    (∀ (c : Compiler) (name : String) (args : List BasicValueEnum),
      c.stack_function.contains name = false →
      create_function_call c name args = .error "Function not found!") := by
  constructor
  · intro c name args m func k bb h1 h2 h3 h4 h5
    obtain ⟨mod, sf, st, bl, cur, ct⟩ := c
    simp only at h1 h2 h3 h4 h5 ⊢
    subst h2
    subst h4
    have h1b : name ∈ sf := by simpa using h1
    by_cases hret : func.fnRet = .VoidType <;>
      simp [create_function_call, emitInstr, h1b, h3, h5, hret]
  · intro c name args h1
    have h1b : ¬ name ∈ c.stack_function := by simpa using h1
    simp [create_function_call, h1b]

/-- C3 witness: the amended theorem evaluated on `cexFunc`, whose function "f"
expects one Number parameter: calling it with the empty argument list succeeds
and yields a float-typed result, and calling an unknown name fails. -/
theorem C3_witness :
    create_function_call cexFunc "f" [] =
      .ok (some (.SSAValue (.FloatType 64) 1),
        { cexFunc with
            blocks := cexFunc.blocks.set 0
              { blockName := "f", parent := "f",
                instrs := [.Alloca (.FloatType 64) "a",
                           .Store (.PointerValue 0) (.SSAValue (.FloatType 64) 0),
                           .Call "f" [] "f"] }
            counter := 2 }) ∧
    create_function_call cexFunc "g" [] = .error "Function not found!" := by
  constructor
  · rw [C3_amended.1 cexFunc "f" []
      { moduleName := "m",
        functions := [{ fnName := "f", fnParams := [.FloatType 64], fnRet := .FloatType 64 }] }
      { fnName := "f", fnParams := [.FloatType 64], fnRet := .FloatType 64 }
      0
      { blockName := "f", parent := "f",
        instrs := [.Alloca (.FloatType 64) "a",
                   .Store (.PointerValue 0) (.SSAValue (.FloatType 64) 0)] }
      (by decide) (by decide) (by decide) (by decide) (by decide)]
    rfl
  · exact C3_amended.2 cexFunc "g" [] (by decide)

/-- Setting the position right after a list's last element (the freshly
appended block) replaces that element. -/
theorem set_concat_length {α : Type} (l : List α) (x y : α) :
    (l ++ [x]).set l.length y = l ++ [y] := by
  induction l with
  | nil => rfl
  | cons a t ih => simp [List.set, ih]

/-- `resolveParamTypes` reads only the scope stack. -/
theorem resolveParamTypes_stack (c c2 : Compiler) (h : c.stack = c2.stack) :
    ∀ pts : List String, resolveParamTypes c pts = resolveParamTypes c2 pts := by
  intro pts
  induction pts with
  | nil => rfl
  | cons p rest ih => simp [resolveParamTypes, get_ksctype_from_name, h, ih]

/-- C4 amended: on success `create_function` pushes the name on the
function-name stack, registers the function in the module, appends exactly one
entry basic block named after the function, positions the insertion cursor on
it, and fills it with one `alloca` per parameter (carrying the parameter's
name) each followed by a store of the incoming parameter value into the
allocated slot — but the scope stack `stack` is left untouched: no scope is
pushed and no parameter binding is created, so parameters are not resolvable
by name. -/
theorem C4_amended (c : Compiler) (name return_type : String)
    (param_types param_names : List String) (resolved : List AnyTypeEnum)
    (rt : KSCType) (m : Module)
    (h1 : resolveParamTypes c param_types = .ok resolved)
    (h2 : get_ksctype_from_name c return_type = some rt)
    (h3 : rt.reference ≠ .FunctionType)
    (h4 : c.module = some m)
    (h5 : resolved.length = param_names.length) :
    create_function c name return_type param_types param_names =
      .ok ({ fnName := name, fnParams := resolved, fnRet := rt.reference },
        { c with
            stack_function := c.stack_function ++ [name]
            module := some ⟨m.moduleName, m.functions ++ [⟨name, resolved, rt.reference⟩]⟩
            blocks := c.blocks ++
              [⟨name, name, paramInstrs (resolved.zip param_names) c.counter 0⟩]
            cursor := some c.blocks.length
            counter := c.counter + resolved.length }) := by
  obtain ⟨mod, sf, st, bl, cur, ct⟩ := c
  simp only at h1 h2 h4 ⊢
  subst h4
  have h1b : resolveParamTypes
      { module := some m, stack_function := sf ++ [name], stack := st, blocks := bl,
        cursor := cur, counter := ct } param_types = .ok resolved := by
    rw [resolveParamTypes_stack
      { module := some m, stack_function := sf ++ [name], stack := st, blocks := bl,
        cursor := cur, counter := ct }
      { module := some m, stack_function := sf, stack := st, blocks := bl,
        cursor := cur, counter := ct } rfl]
    exact h1
  have h2b : get_ksctype_from_name
      { module := some m, stack_function := sf ++ [name], stack := st, blocks := bl,
        cursor := cur, counter := ct } return_type = some rt := h2
  have hemit := emitAll_ok (paramInstrs (resolved.zip param_names) ct 0)
    ⟨some ⟨m.moduleName, m.functions ++ [⟨name, resolved, rt.reference⟩]⟩,
     sf ++ [name], st, bl ++ [⟨name, name, []⟩], some bl.length, ct + resolved.length⟩
    bl.length ⟨name, name, []⟩
    rfl (by simp [List.getElem?_concat_length])
  have hlen : ¬ resolved.length ≠ param_names.length := by simp [h5]
  simp [create_function, h1b, h2b, h3, append_basic_block, position_at_end, hlen,
    hemit, set_concat_length]

/-- C4 witness: the amended theorem evaluated at the concrete state
`cexModule` for a one-parameter function. -/
theorem C4_witness :
    create_function cexModule "f" "Number" ["Number"] ["a"] =
      .ok ({ fnName := "f", fnParams := [.FloatType 64], fnRet := .FloatType 64 },
        { cexModule with
            stack_function := ["f"]
            module := some ⟨"m", [⟨"f", [.FloatType 64], .FloatType 64⟩]⟩
            blocks := [⟨"f", "f", [.Alloca (.FloatType 64) "a",
                                   .Store (.PointerValue 0) (.SSAValue (.FloatType 64) 0)]⟩]
            cursor := some 0
            counter := 1 }) ∧
    cexModule.stack.length = 1 := by
  constructor
  · rw [C4_amended cexModule "f" "Number" ["Number"] ["a"] [.FloatType 64]
      { name := "Number", reference := .FloatType 64 }
      { moduleName := "m", functions := [] }
      (by decide) (by decide) (by decide) (by decide) (by decide)]
    rfl
  · decide

/-- `create_function` never touches the scope stack, whatever its outcome. -/
theorem create_function_stack_preserved (c : Compiler) (name return_type : String)
    (param_types param_names : List String) (f : LLVMFunction) (c' : Compiler)
    (h : create_function c name return_type param_types param_names = .ok (f, c')) :
    c'.stack = c.stack := by
  unfold create_function at h
  dsimp only [append_basic_block, position_at_end] at h
  repeat' split at h
  all_goals try (cases h; done)
  all_goals
    rename_i heq
    cases h
    have h2 := emitAll_stack _ _ _ heq
    exact h2

/-- `compile_expression` never touches the scope stack: no binding is ever
added to (or removed from) any scope by compiling an expression. -/
theorem compile_expression_stack :
    ∀ (e : Expression) (c : Compiler) (v : KSCValue) (c' : Compiler),
      compile_expression c e = .ok (v, c') → c'.stack = c.stack
  | .Function name return_type param_types param_names content, c, v, c', h => by
      unfold compile_expression at h
      split at h
      · cases h
      · next func c2 heq =>
          cases h
          exact create_function_stack_preserved _ _ _ _ _ _ _ heq
  | .VariableDeclaration typename vname mb value, c, v, c', h => by
      cases heq : compile_expression c value with
      | error e =>
          rw [compile_expression, heq] at h
          cases h
      | ok p =>
          obtain ⟨executed, c2⟩ := p
          have hrec := compile_expression_stack value c executed c2 heq
          rw [compile_expression, heq] at h
          by_cases hfn : executed.valuetype.name = "Function"
          · simp only [hfn, if_pos, ite_true, ne_eq, not_true_eq_false, if_false, ite_false] at h
            simp at h
            rw [← h.2]
            exact hrec
          · cases hv : get_ksctype_from_name c2 typename with
            | none =>
                simp [hfn, hv] at h
            | some kt =>
                simp only [hfn, ite_false, if_neg, hv] at h
                by_cases hname : kt.name = executed.valuetype.name
                · simp [hname] at h
                  rw [← h.2]
                  exact hrec
                · simp [hname] at h

/-- C5 amended: for a variable declaration the initializer is compiled first;
its type is taken as the variable's type when it is named "Function"
(inference for function literals, ignoring the declared type name), otherwise
the declared type name is resolved through the scope stack and its name must
equal the initializer's type name (panic "Cannot be assigned because the type
is different." otherwise); on success the initializer's value and state are
returned unchanged — no storage slot is allocated, nothing is stored, and the
variable name is bound in no scope (the scope stack is preserved by every
compilation). -/
theorem C5_amended (c : Compiler) (typename vname : String) (mb : Bool)
    (init : Expression) (v : KSCValue) (c2 : Compiler)
    (hinit : compile_expression c init = .ok (v, c2)) :
    (v.valuetype.name = "Function" →
      compile_expression c (.VariableDeclaration typename vname mb init) = .ok (v, c2)) ∧
    (∀ kt : KSCType,
      v.valuetype.name ≠ "Function" →
      get_ksctype_from_name c2 typename = some kt →
      kt.name = v.valuetype.name →
      compile_expression c (.VariableDeclaration typename vname mb init) = .ok (v, c2)) ∧
    (∀ kt : KSCType,
      v.valuetype.name ≠ "Function" →
      get_ksctype_from_name c2 typename = some kt →
      kt.name ≠ v.valuetype.name →
      compile_expression c (.VariableDeclaration typename vname mb init) =
        .error "Cannot be assigned because the type is different.") ∧
    c2.stack = c.stack := by
  refine ⟨?_, ?_, ?_, compile_expression_stack init c v c2 hinit⟩
  · intro hfn
    simp [compile_expression, hinit, hfn]
  · intro kt hfn hres hname
    simp [compile_expression, hinit, hfn, hres, hname]
  · intro kt hfn hres hname
    simp [compile_expression, hinit, hfn, hres, hname]

/-- The compiler state after compiling the `gcd` function literal on
`cexModule` (initializer of `gcdProgram`). -/
def cexGcd : Compiler :=
  match compile_expression cexModule
      (.Function "gcd" "Number" ["Number", "Number"] ["a", "b"] []) with
  | .ok (_, c) => c
  | .error _ => Compiler.new

/-- C5 witness: the amended theorem evaluated on the demonstration program:
the declaration yields the function value and state unchanged, and the scope
stack is exactly the one from before the declaration. -/
theorem C5_witness :
    compile_expression cexModule gcdProgram =
      .ok ({ valuetype := { name := "Function", reference := .FunctionType },
             value := .FunctionVal "gcd" }, cexGcd) ∧
    cexGcd.stack = cexModule.stack := by
  have h := C5_amended cexModule "Function" "gcd" false
    (.Function "gcd" "Number" ["Number", "Number"] ["a", "b"] [])
    { valuetype := { name := "Function", reference := .FunctionType },
      value := .FunctionVal "gcd" }
    cexGcd (by decide)
  exact ⟨h.1 rfl, h.2.2.2⟩

/-- C8 amended: `insert_new_type_to_stack` performs no duplicate check: it
unconditionally appends the binding to the innermost (last) scope, so a name
already bound in that scope simply gains a second binding — and within that
scope, lookup (`find?`, first match) still returns the older binding.  The
operation fails only when the scope stack is empty. -/
theorem C8_amended (c : Compiler) (t : KSCType) :
    (∀ s : Stack, c.stack.getLast? = some s →
      insert_new_type_to_stack c t =
        .ok { c with stack := c.stack.dropLast ++ [{ s with types := s.types ++ [t] }] } ∧
      (∀ t' : KSCType, t' ∈ s.types → t'.name = t.name →
        (s.types ++ [t]).find? (fun x => x.name == t.name) =
          s.types.find? (fun x => x.name == t.name))) ∧
    (c.stack.getLast? = none →
      insert_new_type_to_stack c t = .error "There is no stack yet!") := by
  constructor
  · intro s hs
    constructor
    · simp [insert_new_type_to_stack, hs]
    · intro t' hmem hname
      rw [List.find?_append]
      have hsome : (s.types.find? (fun x => x.name == t.name)).isSome := by
        rw [List.find?_isSome]
        exact ⟨t', hmem, by simp [hname]⟩
      cases hfind : s.types.find? (fun x => x.name == t.name) with
      | none => rw [hfind] at hsome; simp at hsome
      | some x => simp
  · intro hs
    simp [insert_new_type_to_stack, hs]

/-- C8 witness: the amended theorem evaluated on a scope already binding "T"
to i32: inserting a second "T" succeeds and both bindings are kept. -/
theorem C8_witness :
    insert_new_type_to_stack cexDup { name := "T", reference := .FloatType 64 } =
      .ok { cexDup with
              stack := [{ types := [{ name := "T", reference := .IntType 32 },
                                    { name := "T", reference := .FloatType 64 }],
                          values := [] }] } := by
  have h := (C8_amended cexDup { name := "T", reference := .FloatType 64 }).1
    { types := [{ name := "T", reference := .IntType 32 }], values := [] } (by decide)
  rw [h.1]
  decide

/-- C10: `create_constant_number` on an integer-typed target of width `w`
produces the integer constant obtained by rounding the literal to the nearest
integer (ties away from zero, Rust's `f64::round`), casting it from f64 to u64
with Rust's saturating `as` semantics, and truncating to the type's width; in
particular every negative literal yields the constant 0, never a
two's-complement encoding. -/
theorem C10_round_sat (c : Compiler) (type_name : String) (number : ℚ)
    (kt : KSCType) (w : Nat)
    (h1 : get_ksctype_from_name c type_name = some kt)
    (h2 : kt.reference = .IntType w) :
    create_constant_number c type_name number =
      .ok (.IntValue w (f64AsU64Sat (rustRound number) % 2 ^ w)) ∧
    (number < 0 → create_constant_number c type_name number = .ok (.IntValue w 0)) := by
  have main : create_constant_number c type_name number =
      .ok (.IntValue w (f64AsU64Sat (rustRound number) % 2 ^ w)) := by
    simp [create_constant_number, h1, h2]
  refine ⟨main, fun hneg => ?_⟩
  have hr : rustRound number ≤ 0 := by
    unfold rustRound
    rw [if_neg (not_le.mpr hneg)]
    refine Int.ceil_le.mpr ?_
    push_cast
    linarith
  have hz : f64AsU64Sat (rustRound number) = 0 := by
    unfold f64AsU64Sat
    rcases lt_or_eq_of_le hr with hlt | heq0
    · rw [if_pos hlt]
    · rw [heq0]
      norm_num
  rw [main, hz]
  simp

/-- C10 witness: the theorem evaluated at the builtin "i32" type and the
negative literal -5: the produced constant is the 32-bit integer 0. -/
theorem C10_witness :
    create_constant_number afterInit "i32" (-5) = .ok (.IntValue 32 0) := by
  exact (C10_round_sat afterInit "i32" (-5)
    { name := "i32", reference := .IntType 32 } 32 (by decide) rfl).2 (by norm_num)

end KSC
